import Mathlib

/-!
# Verification of the PokeWhoAmI catalog / filter engine

A shallow embedding of the two source files of the repository:

* `src/app.js` — the current application: ingestion pipeline
  (`fetchGenerationMappings`, `fetchPokemonList`, `fetchPokemonDetailsBatch`,
  `fetchPokemonDetails`, `init`), the filter engine (`filterPokemon`), the
  selection state (`chooseIdentity`, `chooseRandomPokemon`, `togglePokemon`,
  `resetAllPokemon`) and the facet-toggle event handlers from
  `setupEventListeners`.
* `src/unnamed/part_000` — the legacy version of the application, which still
  carries the type-filter OR/AND mode switch (`typeMode`) and the
  generation-facet single/multiple mode switch (`generationMode`).

JavaScript `Set` objects are modelled as `Finset` when only membership
matters (the `app.js` filter state) and as duplicate-free `List`s in
insertion order where iteration order is observable (the legacy generation
facet, whose mode-collapse reads `[...set][0]`).  Remote fetches are
modelled as an environment of `Option`-valued oracles; a rejected promise is
`none`.
-/

namespace PokeWhoAmI

/-- JavaScript `String.prototype.includes` on exploded strings:
`listPrefixOf needle hay` is `true` when `needle` is an initial segment of
`hay`. -/
def listPrefixOf : List Char → List Char → Bool
  | [], _ => true
  | _ :: _, [] => false
  | a :: as, b :: bs => a == b && listPrefixOf as bs

/-- `containsSub hay needle`: does `needle` occur contiguously inside `hay`? -/
def containsSub (hay needle : List Char) : Bool :=
  match hay with
  | [] => needle.isEmpty
  | _ :: t => listPrefixOf needle hay || containsSub t needle

/-- JavaScript `hay.includes(needle)` for strings. -/
def jsIncludes (hay needle : String) : Bool :=
  containsSub hay.data needle.data

/-- JavaScript `String.prototype.split` with a one-character separator, on
exploded strings: the separators cut the list into (possibly empty)
fields. -/
def splitOnChar (sep : Char) : List Char → List (List Char)
  | [] => [[]]
  | c :: cs =>
      let rest := splitOnChar sep cs
      if c = sep then [] :: rest
      else
        match rest with
        | [] => [[c]]
        | r :: rs => (c :: r) :: rs

/-- JavaScript `s.split(sep)` for a one-character separator. -/
def jsSplit (s : String) (sep : Char) : List String :=
  (splitOnChar sep s.data).map String.mk

/-- JavaScript `parseInt`, restricted to base 10 and non-negative input:
reads the leading run of digits, `none` (NaN) when there is none. -/
def jsParseInt (s : String) : Option Nat :=
  let ds := s.data.takeWhile (fun c => c.isDigit)
  if ds.isEmpty then none
  else some (ds.foldl (fun n c => n * 10 + (c.toNat - 48)) 0)

/-- An enriched catalog entry, as returned by `fetchPokemonDetails` in
`src/app.js` (field for field). -/
structure Pokemon where
  id : Nat
  name : String
  /-- language code ↦ localized display name (`names` object). -/
  names : List (String × String)
  sprite : String
  types : List String
  generation : Nat
  evolutionStage : Nat
  isBaby : Bool
  isLegendary : Bool
  isMythical : Bool
  color : Option String
  deriving DecidableEq, Repr

/-- `state.currentFilters` of `src/app.js`: one include set and one exclude
(`not…`) set per facet plus the name query. -/
structure Filters where
  generations : Finset Nat
  notGenerations : Finset Nat
  types : Finset String
  notTypes : Finset String
  typeCount : Finset String
  notTypeCount : Finset String
  evolutionStages : Finset Nat
  notEvolutionStages : Finset Nat
  specialCategories : Finset String
  notSpecialCategories : Finset String
  colors : Finset String
  notColors : Finset String
  name : String
  deriving DecidableEq

/-- The all-empty filter value the application starts from (the literal in
`state.currentFilters`). -/
def emptyFilters : Filters :=
  { generations := ∅
    notGenerations := ∅
    types := ∅
    notTypes := ∅
    typeCount := ∅
    notTypeCount := ∅
    evolutionStages := ∅
    notEvolutionStages := ∅
    specialCategories := ∅
    notSpecialCategories := ∅
    colors := ∅
    notColors := ∅
    name := "" }

/-- `getDisplayName` of `src/app.js`: the name localized to the current
language, falling back to the default name when the entry is missing or
falsy (empty). -/
def getDisplayName (p : Pokemon) (lang : String) : String :=
  match p.names.lookup lang with
  | none => p.name
  | some n => if n = "" then p.name else n

/-- `filterPokemon` of `src/app.js` as a pure function: the catalog is
narrowed facet by facet, each facet applied only when its set is non-empty
(`size > 0`) resp. the name query non-empty. -/
def filterPokemon (allPokemon : List Pokemon) (f : Filters) (lang : String) :
    List Pokemon :=
  let filtered := allPokemon
  -- Filter by name
  let filtered :=
    if f.name ≠ "" then
      filtered.filter (fun p =>
        jsIncludes (getDisplayName p lang).toLower f.name.toLower
          || jsIncludes p.name.toLower f.name.toLower)
    else filtered
  -- Filter by generation
  let filtered :=
    if 0 < f.generations.card then
      filtered.filter (fun p => decide (p.generation ∈ f.generations))
    else filtered
  -- Exclude NOT generations
  let filtered :=
    if 0 < f.notGenerations.card then
      filtered.filter (fun p => !decide (p.generation ∈ f.notGenerations))
    else filtered
  -- Filter by type (AND mode: must have ALL selected types)
  let filtered :=
    if 0 < f.types.card then
      filtered.filter (fun p => decide (∀ t ∈ f.types, p.types.contains t))
    else filtered
  -- Exclude NOT types
  let filtered :=
    if 0 < f.notTypes.card then
      filtered.filter (fun p => !p.types.any (fun t => decide (t ∈ f.notTypes)))
    else filtered
  -- Filter by type count (single = 1 type, dual = 2 types)
  let filtered :=
    if 0 < f.typeCount.card then
      filtered.filter (fun p =>
        (decide ("single" ∈ f.typeCount) && p.types.length == 1)
          || (decide ("dual" ∈ f.typeCount) && p.types.length == 2))
    else filtered
  -- Exclude NOT type counts
  let filtered :=
    if 0 < f.notTypeCount.card then
      filtered.filter (fun p =>
        !(decide ("single" ∈ f.notTypeCount) && p.types.length == 1)
          && !(decide ("dual" ∈ f.notTypeCount) && p.types.length == 2))
    else filtered
  -- Filter by evolution stage
  let filtered :=
    if 0 < f.evolutionStages.card then
      filtered.filter (fun p => decide (p.evolutionStage ∈ f.evolutionStages))
    else filtered
  -- Exclude NOT evolution stages
  let filtered :=
    if 0 < f.notEvolutionStages.card then
      filtered.filter (fun p => !decide (p.evolutionStage ∈ f.notEvolutionStages))
    else filtered
  -- Filter by special categories (baby, legendary, mythical) — OR logic
  let filtered :=
    if 0 < f.specialCategories.card then
      filtered.filter (fun p =>
        (decide ("baby" ∈ f.specialCategories) && p.isBaby)
          || (decide ("legendary" ∈ f.specialCategories) && p.isLegendary)
          || (decide ("mythical" ∈ f.specialCategories) && p.isMythical))
    else filtered
  -- Exclude NOT special categories
  let filtered :=
    if 0 < f.notSpecialCategories.card then
      filtered.filter (fun p =>
        !((decide ("baby" ∈ f.notSpecialCategories) && p.isBaby)
          || (decide ("legendary" ∈ f.notSpecialCategories) && p.isLegendary)
          || (decide ("mythical" ∈ f.notSpecialCategories) && p.isMythical)))
    else filtered
  -- Filter by color (OR logic; a record with no color never matches)
  let filtered :=
    if 0 < f.colors.card then
      filtered.filter (fun p =>
        match p.color with
        | none => false
        | some c => decide (c ∈ f.colors))
    else filtered
  -- Exclude NOT colors (a record with no color always passes)
  let filtered :=
    if 0 < f.notColors.card then
      filtered.filter (fun p =>
        match p.color with
        | none => true
        | some c => !decide (c ∈ f.notColors))
    else filtered
  filtered

/-- The mutable session state of `src/app.js` (`state` plus the
`typeCountState` closure variable of `setupEventListeners`; DOM-only fields
are omitted). -/
structure AppState where
  allPokemon : List Pokemon
  displayedPokemon : List Pokemon
  disabledPokemon : Finset Nat
  chosenPokemonId : Option Nat
  currentLanguage : String
  currentFilters : Filters
  /-- closure variable of the type-count toggle: "both", "single" or "dual". -/
  typeCountState : String
  deriving DecidableEq

/-- The application state right after ingestion: full catalog displayed,
nothing disabled, nothing chosen, all filters empty. -/
def initialAppState (catalog : List Pokemon) : AppState :=
  { allPokemon := catalog
    displayedPokemon := catalog
    disabledPokemon := ∅
    chosenPokemonId := none
    currentLanguage := "en"
    currentFilters := emptyFilters
    typeCountState := "both" }

/-- The tail of every filter event handler: `filterPokemon()` recomputes
`state.displayedPokemon` from the full catalog. -/
def applyFilter (st : AppState) : AppState :=
  { st with displayedPokemon :=
      filterPokemon st.allPokemon st.currentFilters st.currentLanguage }

/-- `togglePokemon` of `src/app.js`: flip membership of `id` in the disabled
set. -/
def togglePokemon (pokemonId : Nat) (st : AppState) : AppState :=
  if pokemonId ∈ st.disabledPokemon then
    { st with disabledPokemon := st.disabledPokemon.erase pokemonId }
  else
    { st with disabledPokemon := insert pokemonId st.disabledPokemon }

/-- `chooseIdentity` of `src/app.js`: clicking the chosen id un-chooses it,
any other id overwrites the choice. -/
def chooseIdentity (pokemonId : Nat) (st : AppState) : AppState :=
  if st.chosenPokemonId = some pokemonId then
    { st with chosenPokemonId := none }
  else
    { st with chosenPokemonId := some pokemonId }

/-- `chooseRandomPokemon` of `src/app.js`.  The random draw
`Math.floor(Math.random() * available.length)` is modelled by an arbitrary
natural `rand` reduced modulo the number of candidates. -/
def chooseRandomPokemon (rand : Nat) (st : AppState) : AppState :=
  let availablePokemon :=
    st.displayedPokemon.filter (fun p => !decide (p.id ∈ st.disabledPokemon))
  match availablePokemon with
  | [] => st
  | a :: rest =>
      chooseIdentity ((a :: rest).getD (rand % (a :: rest).length) a).id st

/-- `resetAllPokemon` of `src/app.js`: clear the disabled set, the chosen
id and every filter field, then re-run the filter.  (The DOM-only button
resets are omitted; note the `typeCountState` closure variable is *not*
reset by the source, only the button label is.) -/
def resetAllPokemon (st : AppState) : AppState :=
  applyFilter
    { st with
      disabledPokemon := ∅
      chosenPokemonId := none
      currentFilters := emptyFilters }

/-! ## Facet-toggle event handlers of `src/app.js`

Each `[data-…]` click handler cycles the clicked value through
unselected → active → not → unselected over the facet's pair of sets, the
`all` buttons clear both sets, the type-count button cycles its own
three-state closure variable.  Every handler ends in `filterPokemon()`. -/

/-- Generation button click (`[data-generation]`, a concrete generation). -/
def clickGeneration (g : Nat) (st : AppState) : AppState :=
  let f := st.currentFilters
  let isActive := g ∈ f.generations
  let isNot := g ∈ f.notGenerations
  let f :=
    if ¬isActive ∧ ¬isNot then
      { f with generations := insert g f.generations }
    else if isActive then
      { f with generations := f.generations.erase g
               notGenerations := insert g f.notGenerations }
    else
      { f with notGenerations := f.notGenerations.erase g }
  applyFilter { st with currentFilters := f }

/-- Generation `all` button click: clear both generation sets. -/
def clickGenerationAll (st : AppState) : AppState :=
  applyFilter
    { st with currentFilters :=
        { st.currentFilters with generations := ∅, notGenerations := ∅ } }

/-- Type button click (`[data-type]`, a concrete type). -/
def clickType (t : String) (st : AppState) : AppState :=
  let f := st.currentFilters
  let isActive := t ∈ f.types
  let isNot := t ∈ f.notTypes
  let f :=
    if ¬isActive ∧ ¬isNot then
      { f with types := insert t f.types }
    else if isActive then
      { f with types := f.types.erase t
               notTypes := insert t f.notTypes }
    else
      { f with notTypes := f.notTypes.erase t }
  applyFilter { st with currentFilters := f }

/-- Type `all` button click: clear both type sets. -/
def clickTypeAll (st : AppState) : AppState :=
  applyFilter
    { st with currentFilters :=
        { st.currentFilters with types := ∅, notTypes := ∅ } }

/-- Type-count toggle click: `both → single → dual → both`, writing the
matching singleton (or nothing) into `typeCount`. -/
def clickTypeCountToggle (st : AppState) : AppState :=
  let f := { st.currentFilters with typeCount := (∅ : Finset String) }
  let next :=
    if st.typeCountState = "both" then
      ({ f with typeCount := {"single"} }, "single")
    else if st.typeCountState = "single" then
      ({ f with typeCount := {"dual"} }, "dual")
    else
      ({ f with typeCount := (∅ : Finset String) }, "both")
  applyFilter { st with currentFilters := next.1, typeCountState := next.2 }

/-- Evolution-stage button click (`[data-evolution]`, a concrete stage). -/
def clickEvolution (s : Nat) (st : AppState) : AppState :=
  let f := st.currentFilters
  let isActive := s ∈ f.evolutionStages
  let isNot := s ∈ f.notEvolutionStages
  let f :=
    if ¬isActive ∧ ¬isNot then
      { f with evolutionStages := insert s f.evolutionStages }
    else if isActive then
      { f with evolutionStages := f.evolutionStages.erase s
               notEvolutionStages := insert s f.notEvolutionStages }
    else
      { f with notEvolutionStages := f.notEvolutionStages.erase s }
  applyFilter { st with currentFilters := f }

/-- Evolution-stage `all` button click: clear both stage sets. -/
def clickEvolutionAll (st : AppState) : AppState :=
  applyFilter
    { st with currentFilters :=
        { st.currentFilters with evolutionStages := ∅, notEvolutionStages := ∅ } }

/-- Special-category button click (`[data-special]`; this facet has no `all`
button). -/
def clickSpecial (c : String) (st : AppState) : AppState :=
  let f := st.currentFilters
  let isActive := c ∈ f.specialCategories
  let isNot := c ∈ f.notSpecialCategories
  let f :=
    if ¬isActive ∧ ¬isNot then
      { f with specialCategories := insert c f.specialCategories }
    else if isActive then
      { f with specialCategories := f.specialCategories.erase c
               notSpecialCategories := insert c f.notSpecialCategories }
    else
      { f with notSpecialCategories := f.notSpecialCategories.erase c }
  applyFilter { st with currentFilters := f }

/-- Color button click (`[data-color]`; this facet has no `all` button). -/
def clickColor (c : String) (st : AppState) : AppState :=
  let f := st.currentFilters
  let isActive := c ∈ f.colors
  let isNot := c ∈ f.notColors
  let f :=
    if ¬isActive ∧ ¬isNot then
      { f with colors := insert c f.colors }
    else if isActive then
      { f with colors := f.colors.erase c
               notColors := insert c f.notColors }
    else
      { f with notColors := f.notColors.erase c }
  applyFilter { st with currentFilters := f }

/-- Name-search input: overwrite the query and re-filter. -/
def inputName (s : String) (st : AppState) : AppState :=
  applyFilter { st with currentFilters := { st.currentFilters with name := s } }

/-- One user action on the filter / selection UI of `src/app.js`. -/
inductive FilterOp where
  | togGeneration (g : Nat)
  | togGenerationAll
  | togType (t : String)
  | togTypeAll
  | togTypeCount
  | togEvolution (s : Nat)
  | togEvolutionAll
  | togSpecial (c : String)
  | togColor (c : String)
  | setName (s : String)
  | reset

/-- Dispatch one user action to its event handler. -/
def stepOp (st : AppState) (op : FilterOp) : AppState :=
  match op with
  | .togGeneration g => clickGeneration g st
  | .togGenerationAll => clickGenerationAll st
  | .togType t => clickType t st
  | .togTypeAll => clickTypeAll st
  | .togTypeCount => clickTypeCountToggle st
  | .togEvolution s => clickEvolution s st
  | .togEvolutionAll => clickEvolutionAll st
  | .togSpecial c => clickSpecial c st
  | .togColor c => clickColor c st
  | .setName s => inputName s st
  | .reset => resetAllPokemon st

/-- Run a sequence of user actions from a starting state. -/
def runOps (st : AppState) (ops : List FilterOp) : AppState :=
  ops.foldl stepOp st

/-- The include/exclude disjointness property of a filter value: no facet
value sits in both the include and the exclude set of its facet. -/
def FiltersDisjoint (f : Filters) : Prop :=
  Disjoint f.generations f.notGenerations ∧
  Disjoint f.types f.notTypes ∧
  Disjoint f.typeCount f.notTypeCount ∧
  Disjoint f.evolutionStages f.notEvolutionStages ∧
  Disjoint f.specialCategories f.notSpecialCategories ∧
  Disjoint f.colors f.notColors

theorem filterPokemon_emptyFilters (l : List Pokemon) (lang : String) :
    filterPokemon l emptyFilters lang = l := by
  simp [filterPokemon, emptyFilters]

theorem applyFilter_currentFilters (st : AppState) :
    (applyFilter st).currentFilters = st.currentFilters := rfl

/-! ## The legacy application, `src/unnamed/part_000`

The older version of `app.js` still in the repository.  Its filter state
carries two mode switches the current version dropped: `typeMode`
(`'or'`/`'and'`) deciding the type include test, and `generationMode`
(`'single'`/`'multiple'`).  Here iteration order of a JavaScript `Set` is
observable (`[...set][0]` in the mode collapse), so the sets are modelled as
duplicate-free lists in insertion order: `Set.add` appends a missing
element, `Set.delete` removes it. -/

namespace Legacy

/-- `Set.add`: append when absent (JavaScript sets keep insertion order). -/
def jsSetAdd {α : Type} [DecidableEq α] (s : List α) (v : α) : List α :=
  if v ∈ s then s else s ++ [v]

/-- `Set.delete`: remove the element. -/
def jsSetDelete {α : Type} [DecidableEq α] (s : List α) (v : α) : List α :=
  s.filter (fun x => !decide (x = v))

/-- A catalog entry of the legacy app (the object literal returned by its
`fetchPokemonDetails`). -/
structure LegacyPokemon where
  id : Nat
  name : String
  sprite : String
  types : List String
  generation : Nat
  deriving DecidableEq, Repr

/-- `state.currentFilters` of `src/unnamed/part_000`. -/
structure LegacyFilters where
  generations : List Nat
  notGenerations : List Nat
  /-- `'single'` or `'multiple'`. -/
  generationMode : String
  types : List String
  notTypes : List String
  /-- `'or'` or `'and'`. -/
  typeMode : String
  name : String
  deriving DecidableEq

/-- The legacy app's initial filter value. -/
def emptyLegacyFilters : LegacyFilters :=
  { generations := []
    notGenerations := []
    generationMode := "single"
    types := []
    notTypes := []
    typeMode := "or"
    name := "" }

/-- `filterPokemon` of `src/unnamed/part_000`: name, generation
include/exclude, then the mode-dependent type include test (`and`: the
record must have *all* selected types; otherwise `or`: at least one),
then the type exclude test. -/
def filterPokemon (allPokemon : List LegacyPokemon) (f : LegacyFilters) :
    List LegacyPokemon :=
  let filtered := allPokemon
  -- Filter by name
  let filtered :=
    if f.name ≠ "" then
      filtered.filter (fun p => jsIncludes p.name.toLower f.name.toLower)
    else filtered
  -- Filter by generation
  let filtered :=
    if 0 < f.generations.length then
      filtered.filter (fun p => p.generation ∈ f.generations)
    else filtered
  -- Exclude NOT generations
  let filtered :=
    if 0 < f.notGenerations.length then
      filtered.filter (fun p => !decide (p.generation ∈ f.notGenerations))
    else filtered
  -- Filter by type, mode-dependent
  let filtered :=
    if 0 < f.types.length then
      if f.typeMode = "and" then
        -- AND mode: Pokemon must have ALL selected types
        filtered.filter (fun p => f.types.all (fun t => p.types.contains t))
      else
        -- OR mode: Pokemon must have at least ONE selected type
        filtered.filter (fun p => p.types.any (fun t => f.types.contains t))
    else filtered
  -- Exclude NOT types
  let filtered :=
    if 0 < f.notTypes.length then
      filtered.filter (fun p => !p.types.any (fun t => f.notTypes.contains t))
    else filtered
  filtered

/-- The `genModeToggle` click handler of `src/unnamed/part_000`:
`single → multiple` just flips the mode; `multiple → single` additionally
collapses the selection when more than one value is active (included or
excluded): both sets are cleared, then the first included value — or,
failing that, the first excluded value — is put back. -/
def genModeToggleClick (f : LegacyFilters) : LegacyFilters :=
  if f.generationMode = "single" then
    { f with generationMode := "multiple" }
  else
    let f := { f with generationMode := "single" }
    let totalSelections := f.generations.length + f.notGenerations.length
    if 1 < totalSelections then
      let firstGen := f.generations.head?
      let firstNotGen := f.notGenerations.head?
      let f := { f with generations := [], notGenerations := [] }
      match firstGen with
      | some g => { f with generations := jsSetAdd f.generations g }
      | none =>
          match firstNotGen with
          | some g => { f with notGenerations := jsSetAdd f.notGenerations g }
          | none => f
    else f

/-- The `typeModeToggle` click handler: flip between `'or'` and `'and'`. -/
def typeModeToggleClick (f : LegacyFilters) : LegacyFilters :=
  if f.typeMode = "or" then
    { f with typeMode := "and" }
  else
    { f with typeMode := "or" }

end Legacy

/-! ## Ingestion pipeline of `src/app.js`

The remote service is an environment of `Option`-valued oracles; `none`
models a rejected fetch (or failed JSON decode).  `init` drives
`fetchGenerationMappings`, `fetchPokemonList` (the `pokemonList` field) and
`fetchPokemonDetailsBatch`, then sorts the catalog by id.  A `try/catch` is
mirrored by where an oracle's `none` is absorbed. -/

def BATCH_SIZE : Nat := 30

def MAX_POKEMON_ID : Nat := 1025

/-- One entry of the reference list (`data.results` of the list fetch). -/
structure PokemonRef where
  name : String
  url : String
  deriving DecidableEq, Repr

/-- The `species` sub-object of a detail record (`{name, url}`). -/
structure SpeciesRef where
  name : String
  url : String
  deriving DecidableEq, Repr

/-- A decoded per-entity detail record, the fields `fetchPokemonDetails`
consumes. -/
structure DetailData where
  id : Nat
  name : String
  /-- `data.sprites.other?.showdown?.front_default` -/
  showdownSprite : Option String
  /-- `data.sprites.front_default` -/
  frontDefault : Option String
  types : List String
  species : SpeciesRef
  deriving DecidableEq, Repr

/-- A decoded species record, the fields `fetchPokemonDetails` consumes. -/
structure SpeciesData where
  /-- `(language.name, name)` pairs of the `names` array. -/
  names : List (String × String)
  isBaby : Bool
  isLegendary : Bool
  isMythical : Bool
  /-- `speciesData.color?.name` -/
  color : Option String
  /-- `speciesData.evolves_from_species?.url` -/
  evolvesFromUrl : Option String
  deriving DecidableEq, Repr

/-- The catalog source: one oracle per remote endpoint, `none` = rejected
fetch. -/
structure FetchEnv where
  /-- `GET /generation/i` → the species names of generation `i`. -/
  generationSpecies : Nat → Option (List String)
  /-- `GET /pokemon?limit=10000` → the reference list. -/
  pokemonList : Option (List PokemonRef)
  /-- `GET pokemon.url` → the detail record. -/
  detail : String → Option DetailData
  /-- `GET <species url>` → the species record. -/
  species : String → Option SpeciesData

/-- `fetchGenerationMappings` of `src/app.js`: for each generation 1..9
whose fetch succeeds, map each of its species names to the generation
number (later writes overwrite); a generation whose fetch fails contributes
nothing and is otherwise ignored. -/
def fetchGenerationMappings (env : FetchEnv) : String → Option Nat :=
  (List.range 9).foldl
    (fun m i0 =>
      let i := i0 + 1
      match env.generationSpecies i with
      | none => m
      | some speciesNames =>
          speciesNames.foldl
            (fun m speciesName =>
              fun k => if k = speciesName then some i else m k) m)
    (fun _ => none)

/-- JavaScript `a || b` for an optional string (`none` and `""` are falsy). -/
def jsOrStr (a : Option String) (b : String) : String :=
  match a with
  | none => b
  | some s => if s = "" then b else s

/-- The inline data-URI placeholder sprite of `fetchPokemonDetails`. -/
def placeholderSprite : String :=
  "data:image/svg+xml,%3Csvg xmlns=%22http://www.w3.org/2000/svg%22 width=%2280%22 height=%2280%22%3E...%3C/svg%3E"

/-- The language allow-list of the species-name extraction. -/
def targetLanguages : List String := ["en", "de", "es", "fr", "ja", "ko"]

/-- The species-derived fields of a catalog entry, with the defaults they
take when species data is unavailable. -/
structure SpeciesEnrichment where
  evolutionStage : Nat
  names : List (String × String)
  isBaby : Bool
  isLegendary : Bool
  isMythical : Bool
  color : Option String
  deriving DecidableEq, Repr

/-- The defaults assigned before the inner `try` of `fetchPokemonDetails`. -/
def defaultEnrichment : SpeciesEnrichment :=
  { evolutionStage := 1
    names := []
    isBaby := false
    isLegendary := false
    isMythical := false
    color := none }

/-- The inner `try` block of `fetchPokemonDetails`: fetch the species
record, extract names / flags / color, and — only when the species declares
a predecessor — fetch the predecessor's species record to decide stage 2
vs 3.  A failed species fetch leaves all defaults; a failed predecessor
fetch keeps the already-extracted fields but leaves the stage at 1 (the
exception fires before the stage is assigned). -/
def speciesEnrichment (env : FetchEnv) (speciesUrl : String) :
    SpeciesEnrichment :=
  match env.species speciesUrl with
  | none => defaultEnrichment
  | some sp =>
      let base : SpeciesEnrichment :=
        { evolutionStage := 1
          names := sp.names.filter (fun e => e.1 ∈ targetLanguages)
          isBaby := sp.isBaby
          isLegendary := sp.isLegendary
          isMythical := sp.isMythical
          color := sp.color }
      match sp.evolvesFromUrl with
      | none => base
      | some prevUrl =>
          match env.species prevUrl with
          | none => base
          | some prevSp =>
              if prevSp.evolvesFromUrl.isSome then
                { base with evolutionStage := 3 }
              else
                { base with evolutionStage := 2 }

/-- `fetchPokemonDetails` of `src/app.js`: `none` exactly when the detail
fetch itself fails (outer `try`); species-level failures are absorbed by
`speciesEnrichment`. -/
def fetchPokemonDetails (env : FetchEnv) (generationMap : String → Option Nat)
    (pokemon : PokemonRef) : Option Pokemon :=
  match env.detail pokemon.url with
  | none => none
  | some data =>
      let sprite := jsOrStr data.showdownSprite
        (jsOrStr data.frontDefault placeholderSprite)
      let e := speciesEnrichment env data.species.url
      some
        { id := data.id
          name := data.name
          names := e.names
          sprite := sprite
          types := data.types
          generation := (generationMap data.species.name).getD 1
          evolutionStage := e.evolutionStage
          isBaby := e.isBaby
          isLegendary := e.isLegendary
          isMythical := e.isMythical
          color := e.color }

/-- The numeric id encoded in a reference's URL:
`parseInt(urlParts[urlParts.length - 2])` after splitting on `/`; `none` is
NaN. -/
def refEncodedId (pokemon : PokemonRef) : Option Nat :=
  let urlParts := jsSplit pokemon.url '/'
  if urlParts.length < 2 then none
  else jsParseInt (urlParts.getD (urlParts.length - 2) "")

/-- The id-bound check of `fetchPokemonDetailsBatch`'s reference filter
(`pokemonId <= MAX_POKEMON_ID`; NaN compares false). -/
def refInRange (pokemon : PokemonRef) : Bool :=
  match refEncodedId pokemon with
  | none => false
  | some n => decide (n ≤ MAX_POKEMON_ID)

/-- The batch-building loop: `slice(i, i + BATCH_SIZE)` for
`i = 0, 30, 60, …`. -/
def makeBatches {α : Type} : List α → List (List α)
  | [] => []
  | x :: xs =>
      ((x :: xs).take BATCH_SIZE) :: makeBatches ((x :: xs).drop BATCH_SIZE)
  termination_by l => l.length
  decreasing_by simp [BATCH_SIZE]; omega

/-- `fetchPokemonDetailsBatch` of `src/app.js`: filter the reference list to
the id bound, cut it into batches of `BATCH_SIZE`, resolve each batch and
append its non-null results to the accumulator. -/
def fetchPokemonDetailsBatch (env : FetchEnv)
    (generationMap : String → Option Nat) (pokemonList : List PokemonRef) :
    List Pokemon :=
  let filteredList := pokemonList.filter refInRange
  let batches := makeBatches filteredList
  batches.foldl
    (fun acc batch =>
      acc ++ (batch.map (fetchPokemonDetails env generationMap)).reduceOption)
    []

/-- `init` of `src/app.js`, up to the point the catalog is frozen: `none`
when the top-level reference-list fetch fails (nothing catches it before
`init`'s own handler, which produces no catalog), otherwise the sorted
catalog. -/
def init (env : FetchEnv) : Option (List Pokemon) :=
  match env.pokemonList with
  | none => none
  | some pokemonList =>
      let generationMap := fetchGenerationMappings env
      some ((fetchPokemonDetailsBatch env generationMap pokemonList).mergeSort
        (fun a b => a.id ≤ b.id))

/-! ## Claim C8: reset postcondition -/

/-- **C8.** After `resetAllPokemon`, regardless of the prior state: every
facet's include and exclude set is empty and the name query is empty (the
filter value is exactly the all-empty one), the disabled set is empty, the
chosen id is none, and applying the filter to the catalog returns the full
catalog unchanged in order (which is also what is displayed). -/
theorem C8_reset_postcondition (st : AppState) :
    (resetAllPokemon st).currentFilters = emptyFilters ∧
    (resetAllPokemon st).disabledPokemon = ∅ ∧
    (resetAllPokemon st).chosenPokemonId = none ∧
    (resetAllPokemon st).displayedPokemon = st.allPokemon ∧
    filterPokemon st.allPokemon (resetAllPokemon st).currentFilters
      (resetAllPokemon st).currentLanguage = st.allPokemon := by
  refine ⟨rfl, rfl, rfl, ?_, ?_⟩ <;>
    simp [resetAllPokemon, applyFilter, filterPokemon_emptyFilters]

/-! ## Claim C5: random pick -/

/-- **C5.** `chooseRandomPokemon` draws only from the displayed subset minus
the disabled ids: when that eligible list is empty it is a no-op on the
whole state; when it is a singleton it always picks that one id; and in
general the drawn id is an eligible one and the result is exactly
`chooseIdentity` of it (hence also choose's un-choose behavior applies). -/
theorem C5_chooseRandom (st : AppState) (rand : Nat) :
    (st.displayedPokemon.filter (fun p => !decide (p.id ∈ st.disabledPokemon)) = [] →
      chooseRandomPokemon rand st = st) ∧
    (∀ q, st.displayedPokemon.filter
        (fun p => !decide (p.id ∈ st.disabledPokemon)) = [q] →
      chooseRandomPokemon rand st = chooseIdentity q.id st) ∧
    (∀ a rest, st.displayedPokemon.filter
        (fun p => !decide (p.id ∈ st.disabledPokemon)) = a :: rest →
      ∃ p, p ∈ a :: rest ∧ chooseRandomPokemon rand st = chooseIdentity p.id st) := by
  refine ⟨?_, ?_, ?_⟩
  · intro h
    simp only [chooseRandomPokemon, h]
  · intro q h
    simp only [chooseRandomPokemon, h]
    simp [Nat.mod_one]
  · intro a rest h
    simp only [chooseRandomPokemon, h]
    refine ⟨(a :: rest).getD (rand % (a :: rest).length) a, ?_, rfl⟩
    have hlt : rand % (a :: rest).length < (a :: rest).length :=
      Nat.mod_lt _ (by simp)
    rw [List.getD_eq_getElem _ _ hlt]
    exact List.getElem_mem hlt

/-- Witness for C5 on a concrete one-element eligible set. -/
def c5Poke : Pokemon :=
  { id := 25
    name := "pikachu"
    names := []
    sprite := "s"
    types := ["electric"]
    generation := 1
    evolutionStage := 2
    isBaby := false
    isLegendary := false
    isMythical := false
    color := some "yellow" }

/-- A concrete session state with exactly one eligible entry. -/
def c5State : AppState :=
  { allPokemon := [c5Poke]
    displayedPokemon := [c5Poke]
    disabledPokemon := ∅
    chosenPokemonId := none
    currentLanguage := "en"
    currentFilters := emptyFilters
    typeCountState := "both" }

theorem C5_chooseRandom_witness :
    chooseRandomPokemon 7 c5State = chooseIdentity 25 c5State :=
  (C5_chooseRandom c5State 7).2.1 c5Poke (by decide)

/-! ## Claim C9: single-mode collapse of the legacy generation facet -/

/-- How the mode toggle collapses an over-full selection: the retained value
is the head of the included list when it is non-empty, else the head of the
excluded list. -/
theorem genModeToggleClick_collapse (f : Legacy.LegacyFilters)
    (hmode : f.generationMode = "multiple")
    (hmany : 1 < f.generations.length + f.notGenerations.length) :
    (∀ a as, f.generations = a :: as →
      Legacy.genModeToggleClick f =
        { f with generationMode := "single", generations := [a],
                 notGenerations := [] }) ∧
    (∀ b bs, f.generations = [] → f.notGenerations = b :: bs →
      Legacy.genModeToggleClick f =
        { f with generationMode := "single", generations := [],
                 notGenerations := [b] }) := by
  have hm : ¬(f.generationMode = "single") := by rw [hmode]; decide
  constructor
  · intro a as hg
    simp only [Legacy.genModeToggleClick, if_neg hm]
    rw [hg] at hmany
    simp only [hg, List.length_cons]
    rw [if_pos (by simpa using hmany)]
    simp [Legacy.jsSetAdd]
  · intro b bs hg hn
    simp only [Legacy.genModeToggleClick, if_neg hm]
    rw [hg, hn] at hmany
    simp only [hg, hn, List.length_cons, List.length_nil]
    rw [if_pos (by simpa using hmany)]
    simp [Legacy.jsSetAdd]

/-- **C9.** In the legacy app, switching the generation facet to single mode
while more than one value is active (included plus excluded) collapses the
selection to at most one retained value: the first-selected included value
when one exists (so an included value is preferred over any excluded one),
otherwise the first-selected excluded value.  (`Set` iteration order is
insertion order, so the head of the list is the first-selected value.) -/
theorem C9_single_mode_collapse (f : Legacy.LegacyFilters)
    (hmode : f.generationMode = "multiple")
    (hmany : 1 < f.generations.length + f.notGenerations.length) :
    (Legacy.genModeToggleClick f).generationMode = "single" ∧
    (Legacy.genModeToggleClick f).generations.length +
      (Legacy.genModeToggleClick f).notGenerations.length ≤ 1 ∧
    (∀ g, f.generations.head? = some g →
      (Legacy.genModeToggleClick f).generations = [g] ∧
      (Legacy.genModeToggleClick f).notGenerations = []) ∧
    (f.generations = [] → ∀ g, f.notGenerations.head? = some g →
      (Legacy.genModeToggleClick f).generations = [] ∧
      (Legacy.genModeToggleClick f).notGenerations = [g]) := by
  obtain ⟨hinc, hexc⟩ := genModeToggleClick_collapse f hmode hmany
  rcases hg : f.generations with _ | ⟨a, as⟩
  · rcases hn : f.notGenerations with _ | ⟨b, bs⟩
    · rw [hg, hn] at hmany; simp at hmany
    · rw [hexc b bs hg hn]
      refine ⟨rfl, by simp, ?_, ?_⟩
      · intro g hg'; simp at hg'
      · intro _ g hn'
        simp only [List.head?_cons, Option.some.injEq] at hn'
        subst hn'
        exact ⟨rfl, rfl⟩
  · rw [hinc a as hg]
    refine ⟨rfl, by simp, ?_, ?_⟩
    · intro g hg'
      simp only [List.head?_cons, Option.some.injEq] at hg'
      subst hg'
      exact ⟨rfl, rfl⟩
    · intro hg'; simp at hg'

/-- A concrete legacy filter with one included and one excluded generation,
in multiple mode. -/
def c9Filters : Legacy.LegacyFilters :=
  { generations := [4, 7]
    notGenerations := [2]
    generationMode := "multiple"
    types := []
    notTypes := []
    typeMode := "or"
    name := "" }

theorem C9_single_mode_collapse_witness :
    (Legacy.genModeToggleClick c9Filters).generations = [4] ∧
    (Legacy.genModeToggleClick c9Filters).notGenerations = [] :=
  (C9_single_mode_collapse c9Filters (by decide) (by decide)).2.2.1 4 (by decide)

/-! ## Claim C1: mode-dependent category (type) inclusion test -/

/-- **C1.** In the legacy filter engine carrying the mode switch, with the
type include set `{fire, flying}` and all other facets inactive: in AND mode
a record passes the include test iff it has *all* included types, in OR mode
iff it has at least one; in particular a record whose types are exactly
`{fire}` is rejected in AND mode and accepted in OR mode. -/
theorem C1_type_mode_dependence (p : Legacy.LegacyPokemon)
    (f : Legacy.LegacyFilters)
    (hname : f.name = "") (hg : f.generations = [])
    (hng : f.notGenerations = [])
    (ht : f.types = ["fire", "flying"]) (hnt : f.notTypes = []) :
    (f.typeMode = "and" → ∀ q : Legacy.LegacyPokemon,
      (Legacy.filterPokemon [q] f = [q] ↔
        (q.types.contains "fire" ∧ q.types.contains "flying"))) ∧
    (f.typeMode = "or" → ∀ q : Legacy.LegacyPokemon,
      (Legacy.filterPokemon [q] f = [q] ↔
        (q.types.contains "fire" ∨ q.types.contains "flying"))) ∧
    (p.types = ["fire"] → f.typeMode = "and" →
      Legacy.filterPokemon [p] f = []) ∧
    (p.types = ["fire"] → f.typeMode = "or" →
      Legacy.filterPokemon [p] f = [p]) := by
  refine ⟨?_, ?_, ?_, ?_⟩
  · intro hmode q
    simp only [Legacy.filterPokemon, hname, hg, hng, ht, hnt, hmode]
    simp [List.filter]
    by_cases h1 : "fire" ∈ q.types <;> by_cases h2 : "flying" ∈ q.types <;>
      simp [h1, h2]
  · intro hmode q
    have hmode' : ¬(f.typeMode = "and") := by rw [hmode]; decide
    simp only [Legacy.filterPokemon, hname, hg, hng, ht, hnt, if_neg hmode']
    simp [List.filter]
    have hany :
        ((q.types.any fun t => decide (t = "fire") || decide (t = "flying"))
          = true) ↔ ("fire" ∈ q.types ∨ "flying" ∈ q.types) := by
      simp only [List.any_eq_true, Bool.or_eq_true, decide_eq_true_eq]
      constructor
      · rintro ⟨x, hx, rfl | rfl⟩
        · exact Or.inl hx
        · exact Or.inr hx
      · rintro (h | h)
        · exact ⟨"fire", h, Or.inl rfl⟩
        · exact ⟨"flying", h, Or.inr rfl⟩
    cases hb : (q.types.any fun t => decide (t = "fire") || decide (t = "flying"))
    · rw [hb] at hany
      simp only [Bool.false_eq_true, false_iff] at hany
      simp [hany]
    · rw [hb] at hany
      simp only [true_iff] at hany
      simp [hany]
  · intro hp hmode
    simp only [Legacy.filterPokemon, hname, hg, hng, ht, hnt, hmode, hp]
    simp [List.filter, hp]
  · intro hp hmode
    have hmode' : ¬(f.typeMode = "and") := by rw [hmode]; decide
    simp only [Legacy.filterPokemon, hname, hg, hng, ht, hnt, if_neg hmode', hp]
    simp [List.filter, hp]

/-- A concrete mono-fire record for the C1 witness. -/
def c1Record : Legacy.LegacyPokemon :=
  { id := 4, name := "charmander", sprite := "s", types := ["fire"],
    generation := 1 }

/-- `{fire, flying}` include set in AND mode. -/
def c1AndFilters : Legacy.LegacyFilters :=
  { Legacy.emptyLegacyFilters with types := ["fire", "flying"], typeMode := "and" }

/-- `{fire, flying}` include set in OR mode. -/
def c1OrFilters : Legacy.LegacyFilters :=
  { Legacy.emptyLegacyFilters with types := ["fire", "flying"], typeMode := "or" }

theorem C1_type_mode_dependence_witness :
    Legacy.filterPokemon [c1Record] c1AndFilters = [] ∧
    Legacy.filterPokemon [c1Record] c1OrFilters = [c1Record] :=
  ⟨(C1_type_mode_dependence c1Record c1AndFilters rfl rfl rfl rfl rfl).2.2.1
      rfl rfl,
   (C1_type_mode_dependence c1Record c1OrFilters rfl rfl rfl rfl rfl).2.2.2
      rfl rfl⟩

/-! ## Claim C10: the color facet on records without a color -/

/-- **C10.** In `filterPokemon` of `src/app.js`, with all other facets
inactive: a record whose `color` is absent is rejected by any non-empty
color include set and always passes any color exclude set; a record with a
color passes the include set iff its color is a member and passes the
exclude set iff its color is not a member. -/
theorem C10_color_absent (p : Pokemon) (lang : String) (S T : Finset String) :
    (S.Nonempty → p.color = none →
      filterPokemon [p] { emptyFilters with colors := S, notColors := T }
        lang = []) ∧
    (p.color = none →
      filterPokemon [p] { emptyFilters with notColors := T } lang = [p]) ∧
    (∀ c, p.color = some c → S.Nonempty →
      filterPokemon [p] { emptyFilters with colors := S } lang =
        if c ∈ S then [p] else []) ∧
    (∀ c, p.color = some c →
      filterPokemon [p] { emptyFilters with notColors := T } lang =
        if c ∈ T then [] else [p]) := by
  refine ⟨?_, ?_, ?_, ?_⟩
  · intro hS hp
    have hcard : 0 < S.card := Finset.card_pos.mpr hS
    by_cases hT : 0 < T.card <;>
      simp [filterPokemon, emptyFilters, hcard, hT, List.filter, hp]
  · intro hp
    by_cases hT : 0 < T.card <;>
      simp [filterPokemon, emptyFilters, hT, List.filter, hp]
  · intro c hp hS
    have hcard : 0 < S.card := Finset.card_pos.mpr hS
    by_cases hc : c ∈ S <;>
      simp [filterPokemon, emptyFilters, hcard, List.filter, hp, hc]
  · intro c hp
    by_cases hT : 0 < T.card
    · by_cases hc : c ∈ T <;>
        simp [filterPokemon, emptyFilters, hT, List.filter, hp, hc]
    · have hT0 : T = ∅ := by
        rcases Finset.eq_empty_or_nonempty T with h | h
        · exact h
        · exact absurd (Finset.card_pos.mpr h) hT
      subst hT0
      simp [filterPokemon, emptyFilters, List.filter, hp]

/-- A colorless record for the C10 witness. -/
def c10Poke : Pokemon :=
  { id := 201
    name := "unown"
    names := []
    sprite := "s"
    types := ["psychic"]
    generation := 2
    evolutionStage := 1
    isBaby := false
    isLegendary := false
    isMythical := false
    color := none }

theorem C10_color_absent_witness :
    filterPokemon [c10Poke]
      { emptyFilters with colors := {"red"}, notColors := {"blue"} } "en"
      = [] ∧
    filterPokemon [c10Poke] { emptyFilters with notColors := {"blue"} } "en"
      = [c10Poke] :=
  ⟨(C10_color_absent c10Poke "en" {"red"} {"blue"}).1 ⟨"red", by decide⟩ rfl,
   (C10_color_absent c10Poke "en" {"red"} {"blue"}).2.1 rfl⟩

/-! ## Claim C7: tri-state cycling round trip -/

/-- **C7.** For each tri-state facet of `src/app.js` (generation, type,
evolution stage, special category, color), toggling a previously-unselected
value three consecutive times (unselected → included → excluded →
unselected) returns the filter state to exactly its prior value. -/
theorem C7_tristate_cycle (st : AppState) (g s : Nat) (t c col : String)
    (hg1 : g ∉ st.currentFilters.generations)
    (hg2 : g ∉ st.currentFilters.notGenerations)
    (ht1 : t ∉ st.currentFilters.types)
    (ht2 : t ∉ st.currentFilters.notTypes)
    (hs1 : s ∉ st.currentFilters.evolutionStages)
    (hs2 : s ∉ st.currentFilters.notEvolutionStages)
    (hc1 : c ∉ st.currentFilters.specialCategories)
    (hc2 : c ∉ st.currentFilters.notSpecialCategories)
    (hcol1 : col ∉ st.currentFilters.colors)
    (hcol2 : col ∉ st.currentFilters.notColors) :
    (clickGeneration g (clickGeneration g (clickGeneration g st))).currentFilters
      = st.currentFilters ∧
    (clickType t (clickType t (clickType t st))).currentFilters
      = st.currentFilters ∧
    (clickEvolution s (clickEvolution s (clickEvolution s st))).currentFilters
      = st.currentFilters ∧
    (clickSpecial c (clickSpecial c (clickSpecial c st))).currentFilters
      = st.currentFilters ∧
    (clickColor col (clickColor col (clickColor col st))).currentFilters
      = st.currentFilters := by
  refine ⟨?_, ?_, ?_, ?_, ?_⟩
  · simp [clickGeneration, applyFilter, hg1, hg2,
      Finset.erase_insert hg1, Finset.erase_insert hg2]
  · simp [clickType, applyFilter, ht1, ht2,
      Finset.erase_insert ht1, Finset.erase_insert ht2]
  · simp [clickEvolution, applyFilter, hs1, hs2,
      Finset.erase_insert hs1, Finset.erase_insert hs2]
  · simp [clickSpecial, applyFilter, hc1, hc2,
      Finset.erase_insert hc1, Finset.erase_insert hc2]
  · simp [clickColor, applyFilter, hcol1, hcol2,
      Finset.erase_insert hcol1, Finset.erase_insert hcol2]

theorem C7_tristate_cycle_witness :
    (clickGeneration 3 (clickGeneration 3 (clickGeneration 3
      (initialAppState [c10Poke])))).currentFilters
      = (initialAppState [c10Poke]).currentFilters :=
  (C7_tristate_cycle (initialAppState [c10Poke]) 3 2 "water" "baby" "red"
    (by decide) (by decide) (by decide) (by decide) (by decide)
    (by decide) (by decide) (by decide) (by decide) (by decide)).1

/-! ## Claim C6: include/exclude disjointness invariant -/

theorem disjoint_toggle_insert_left {α : Type} [DecidableEq α]
    {inc exc : Finset α} {v : α} (h : Disjoint inc exc) (hv : v ∉ exc) :
    Disjoint (insert v inc) exc :=
  Finset.disjoint_insert_left.mpr ⟨hv, h⟩

theorem disjoint_toggle_move {α : Type} [DecidableEq α]
    {inc exc : Finset α} {v : α} (h : Disjoint inc exc) :
    Disjoint (inc.erase v) (insert v exc) := by
  rw [Finset.disjoint_insert_right]
  exact ⟨Finset.not_mem_erase _ _,
    Finset.disjoint_of_subset_left (Finset.erase_subset _ _) h⟩

theorem disjoint_toggle_erase_right {α : Type} [DecidableEq α]
    {inc exc : Finset α} {v : α} (h : Disjoint inc exc) :
    Disjoint inc (exc.erase v) :=
  Finset.disjoint_of_subset_right (Finset.erase_subset _ _) h

/-- The inductive invariant: the claimed disjointness, strengthened by the
fact that no handler ever populates `notTypeCount`. -/
def StrongInv (st : AppState) : Prop :=
  FiltersDisjoint st.currentFilters ∧ st.currentFilters.notTypeCount = ∅

theorem strongInv_step (st : AppState) (op : FilterOp) (h : StrongInv st) :
    StrongInv (stepOp st op) := by
  obtain ⟨⟨h1, h2, h3, h4, h5, h6⟩, hTC⟩ := h
  cases op with
  | togGeneration g =>
      simp only [stepOp, clickGeneration, applyFilter, StrongInv,
        FiltersDisjoint]
      split_ifs with hc hd
      · exact ⟨⟨disjoint_toggle_insert_left h1 hc.2, h2, h3, h4, h5, h6⟩, hTC⟩
      · exact ⟨⟨disjoint_toggle_move h1, h2, h3, h4, h5, h6⟩, hTC⟩
      · exact ⟨⟨disjoint_toggle_erase_right h1, h2, h3, h4, h5, h6⟩, hTC⟩
  | togGenerationAll =>
      exact ⟨⟨Finset.disjoint_empty_left _, h2, h3, h4, h5, h6⟩, hTC⟩
  | togType t =>
      simp only [stepOp, clickType, applyFilter, StrongInv, FiltersDisjoint]
      split_ifs with hc hd
      · exact ⟨⟨h1, disjoint_toggle_insert_left h2 hc.2, h3, h4, h5, h6⟩, hTC⟩
      · exact ⟨⟨h1, disjoint_toggle_move h2, h3, h4, h5, h6⟩, hTC⟩
      · exact ⟨⟨h1, disjoint_toggle_erase_right h2, h3, h4, h5, h6⟩, hTC⟩
  | togTypeAll =>
      exact ⟨⟨h1, Finset.disjoint_empty_left _, h3, h4, h5, h6⟩, hTC⟩
  | togTypeCount =>
      simp only [stepOp, clickTypeCountToggle, applyFilter, StrongInv,
        FiltersDisjoint]
      split_ifs <;>
        exact ⟨⟨h1, h2, by rw [hTC]; exact Finset.disjoint_empty_right _,
          h4, h5, h6⟩, hTC⟩
  | togEvolution s =>
      simp only [stepOp, clickEvolution, applyFilter, StrongInv,
        FiltersDisjoint]
      split_ifs with hc hd
      · exact ⟨⟨h1, h2, h3, disjoint_toggle_insert_left h4 hc.2, h5, h6⟩, hTC⟩
      · exact ⟨⟨h1, h2, h3, disjoint_toggle_move h4, h5, h6⟩, hTC⟩
      · exact ⟨⟨h1, h2, h3, disjoint_toggle_erase_right h4, h5, h6⟩, hTC⟩
  | togEvolutionAll =>
      exact ⟨⟨h1, h2, h3, Finset.disjoint_empty_left _, h5, h6⟩, hTC⟩
  | togSpecial c =>
      simp only [stepOp, clickSpecial, applyFilter, StrongInv, FiltersDisjoint]
      split_ifs with hc hd
      · exact ⟨⟨h1, h2, h3, h4, disjoint_toggle_insert_left h5 hc.2, h6⟩, hTC⟩
      · exact ⟨⟨h1, h2, h3, h4, disjoint_toggle_move h5, h6⟩, hTC⟩
      · exact ⟨⟨h1, h2, h3, h4, disjoint_toggle_erase_right h5, h6⟩, hTC⟩
  | togColor c =>
      simp only [stepOp, clickColor, applyFilter, StrongInv, FiltersDisjoint]
      split_ifs with hc hd
      · exact ⟨⟨h1, h2, h3, h4, h5, disjoint_toggle_insert_left h6 hc.2⟩, hTC⟩
      · exact ⟨⟨h1, h2, h3, h4, h5, disjoint_toggle_move h6⟩, hTC⟩
      · exact ⟨⟨h1, h2, h3, h4, h5, disjoint_toggle_erase_right h6⟩, hTC⟩
  | setName s =>
      exact ⟨⟨h1, h2, h3, h4, h5, h6⟩, hTC⟩
  | reset =>
      refine ⟨⟨?_, ?_, ?_, ?_, ?_, ?_⟩, ?_⟩ <;>
        simp [stepOp, resetAllPokemon, applyFilter, emptyFilters]

theorem strongInv_runOps (ops : List FilterOp) (st : AppState)
    (h : StrongInv st) : StrongInv (runOps st ops) := by
  induction ops generalizing st with
  | nil => exact h
  | cons op rest ih => exact ih (stepOp st op) (strongInv_step st op h)

/-- **C6.** Starting from the all-empty filter state, after any sequence of
facet-value toggles, `all` clicks, name edits and resets, no facet value is
simultaneously in a facet's include set and its exclude set. -/
theorem C6_include_exclude_disjoint (catalog : List Pokemon)
    (ops : List FilterOp) :
    FiltersDisjoint (runOps (initialAppState catalog) ops).currentFilters := by
  refine (strongInv_runOps ops (initialAppState catalog) ⟨?_, rfl⟩).1
  refine ⟨?_, ?_, ?_, ?_, ?_, ?_⟩ <;>
    exact Finset.disjoint_empty_left _

/-! ## Ingestion lemmas -/

theorem makeBatches_flatten {α : Type} (l : List α) :
    (makeBatches l).flatten = l := by
  induction l using makeBatches.induct with
  | case1 => simp [makeBatches]
  | case2 x xs ih =>
      rw [makeBatches]
      simp only [List.flatten_cons, ih]
      exact List.take_append_drop _ _

theorem foldl_append_acc {α β : Type} (g : β → List α) (L : List β)
    (acc : List α) :
    L.foldl (fun a b => a ++ g b) acc = acc ++ (L.map g).flatten := by
  induction L generalizing acc with
  | nil => simp
  | cons b L ih => simp [ih, List.append_assoc]

theorem join_map_filterMap {α β : Type} (f : α → Option β)
    (L : List (List α)) :
    (L.map (fun b => b.filterMap f)).flatten = L.flatten.filterMap f := by
  induction L with
  | nil => simp
  | cons b L ih =>
      simp only [List.map_cons, List.flatten_cons, List.filterMap_append, ih]

/-- The batched pipeline resolves exactly the in-range references,
independently of batching: the catalog accumulator is the `filterMap` of
`fetchPokemonDetails` over the filtered reference list, so each reference
contributes only its own (possibly absent) record. -/
theorem fetchPokemonDetailsBatch_eq_filterMap (env : FetchEnv)
    (generationMap : String → Option Nat) (pokemonList : List PokemonRef) :
    fetchPokemonDetailsBatch env generationMap pokemonList =
      (pokemonList.filter refInRange).filterMap
        (fetchPokemonDetails env generationMap) := by
  unfold fetchPokemonDetailsBatch
  rw [foldl_append_acc]
  rw [List.nil_append]
  have hro : ∀ b : List PokemonRef,
      (b.map (fetchPokemonDetails env generationMap)).reduceOption =
        b.filterMap (fetchPokemonDetails env generationMap) := by
    intro b
    rw [List.reduceOption, List.filterMap_map]
    rfl
  have hfun : (fun b : List PokemonRef =>
      (b.map (fetchPokemonDetails env generationMap)).reduceOption) =
      (fun b => b.filterMap (fetchPokemonDetails env generationMap)) :=
    funext hro
  rw [hfun, join_map_filterMap, makeBatches_flatten]

/-! ## Claim C3: evolution depth computation -/

/-- **C3.** Every ingested record's `evolutionStage` is 1, 2 or 3, computed
by at most one predecessor hop: no declared predecessor gives 1, a
predecessor whose own species has no predecessor gives 2, and a predecessor
that itself has a predecessor gives 3 — regardless of how much longer the
true chain is, so a chain of length 4 still yields 3. -/
theorem C3_evolution_depth (env : FetchEnv)
    (generationMap : String → Option Nat) (r : PokemonRef) :
    (∀ p, fetchPokemonDetails env generationMap r = some p →
      p.evolutionStage = 1 ∨ p.evolutionStage = 2 ∨ p.evolutionStage = 3) ∧
    (∀ d sp, env.detail r.url = some d →
      env.species d.species.url = some sp → sp.evolvesFromUrl = none →
      ∀ p, fetchPokemonDetails env generationMap r = some p →
        p.evolutionStage = 1) ∧
    (∀ d sp prevUrl prevSp, env.detail r.url = some d →
      env.species d.species.url = some sp →
      sp.evolvesFromUrl = some prevUrl → env.species prevUrl = some prevSp →
      prevSp.evolvesFromUrl = none →
      ∀ p, fetchPokemonDetails env generationMap r = some p →
        p.evolutionStage = 2) ∧
    (∀ d sp prevUrl prevSp, env.detail r.url = some d →
      env.species d.species.url = some sp →
      sp.evolvesFromUrl = some prevUrl → env.species prevUrl = some prevSp →
      prevSp.evolvesFromUrl.isSome →
      ∀ p, fetchPokemonDetails env generationMap r = some p →
        p.evolutionStage = 3) := by
  refine ⟨?_, ?_, ?_, ?_⟩
  · intro p hp
    rcases hd : env.detail r.url with _ | d
    · simp only [fetchPokemonDetails, hd] at hp
      exact Option.noConfusion hp
    · simp only [fetchPokemonDetails, hd, Option.some.injEq] at hp
      subst hp
      rcases hs : env.species d.species.url with _ | sp
      · simp [speciesEnrichment, hs, defaultEnrichment]
      · rcases he : sp.evolvesFromUrl with _ | prevUrl
        · simp [speciesEnrichment, hs, he]
        · rcases hps : env.species prevUrl with _ | prevSp
          · simp [speciesEnrichment, hs, he, hps]
          · rcases hpe : prevSp.evolvesFromUrl with _ | x <;>
              simp [speciesEnrichment, hs, he, hps, hpe]
  · intro d sp hd hs he p hp
    simp only [fetchPokemonDetails, hd, Option.some.injEq] at hp
    subst hp
    simp [speciesEnrichment, hs, he]
  · intro d sp prevUrl prevSp hd hs he hps hpe p hp
    simp only [fetchPokemonDetails, hd, Option.some.injEq] at hp
    subst hp
    simp [speciesEnrichment, hs, he, hps, hpe]
  · intro d sp prevUrl prevSp hd hs he hps hpe p hp
    simp only [fetchPokemonDetails, hd, Option.some.injEq] at hp
    subst hp
    simp [speciesEnrichment, hs, he, hps, hpe]

/-- A species record for synthetic chains: only the predecessor link
varies. -/
def chainSpecies (prev : Option String) : SpeciesData :=
  { names := []
    isBaby := false
    isLegendary := false
    isMythical := false
    color := none
    evolvesFromUrl := prev }

/-- The detail record of the chain-end entity D. -/
def chain4Detail : DetailData :=
  { id := 4
    name := "dddd"
    showdownSprite := none
    frontDefault := none
    types := ["fire"]
    species := ⟨"dddd", "species/D"⟩ }

/-- A catalog source holding a species chain of length 4
(A ← B ← C ← D). -/
def chain4Env : FetchEnv :=
  { generationSpecies := fun _ => none
    pokemonList := some [⟨"dddd", "https://pokeapi.co/api/v2/pokemon/4/"⟩]
    detail := fun u =>
      if u = "https://pokeapi.co/api/v2/pokemon/4/" then some chain4Detail
      else none
    species := fun u =>
      if u = "species/D" then some (chainSpecies (some "species/C"))
      else if u = "species/C" then some (chainSpecies (some "species/B"))
      else if u = "species/B" then some (chainSpecies (some "species/A"))
      else if u = "species/A" then some (chainSpecies none)
      else none }

/-- The reference to entity D. -/
def chain4Ref : PokemonRef :=
  ⟨"dddd", "https://pokeapi.co/api/v2/pokemon/4/"⟩

/-- The record ingested for D out of the length-4 chain. -/
def chain4Record : Pokemon :=
  { id := 4
    name := "dddd"
    names := []
    sprite := placeholderSprite
    types := ["fire"]
    generation := 1
    evolutionStage := 3
    isBaby := false
    isLegendary := false
    isMythical := false
    color := none }

theorem C3_evolution_depth_witness :
    fetchPokemonDetails chain4Env (fun _ => none) chain4Ref
      = some chain4Record ∧ chain4Record.evolutionStage = 3 := by
  have hfetch : fetchPokemonDetails chain4Env (fun _ => none) chain4Ref
      = some chain4Record := by rfl
  exact ⟨hfetch,
    (C3_evolution_depth chain4Env (fun _ => none) chain4Ref).2.2.2
      chain4Detail (chainSpecies (some "species/C")) "species/C"
      (chainSpecies (some "species/B")) rfl rfl rfl rfl rfl
      chain4Record hfetch⟩

/-! ## Claim C2: ingestion failure semantics -/

/-- **C2 (amended).** A failure of an entity's *detail* fetch drops only
that entity (each reference contributes only its own record to the batched
accumulator); a failure of its *species* fetch does **not** drop the entity
— it is kept with default enrichment (no localized names, stage 1, flags
false, no color); a failure of the *predecessor's* species fetch also keeps
the entity, retaining the species-extracted names / flags / color with only
the stage left at 1 (the inner `catch` fires after those assignments);
generation-lineage failures never block ingestion; and a failure of the
top-level reference-list fetch makes ingestion produce no catalog at
all. -/
theorem C2_failure_semantics (env : FetchEnv) :
    (∀ generationMap r, env.detail r.url = none →
      fetchPokemonDetails env generationMap r = none) ∧
    (∀ generationMap refs,
      fetchPokemonDetailsBatch env generationMap refs =
        (refs.filter refInRange).filterMap
          (fetchPokemonDetails env generationMap)) ∧
    (∀ generationMap r d, env.detail r.url = some d →
      env.species d.species.url = none →
      fetchPokemonDetails env generationMap r = some
        { id := d.id
          name := d.name
          names := []
          sprite := jsOrStr d.showdownSprite
            (jsOrStr d.frontDefault placeholderSprite)
          types := d.types
          generation := (generationMap d.species.name).getD 1
          evolutionStage := 1
          isBaby := false
          isLegendary := false
          isMythical := false
          color := none }) ∧
    (∀ generationMap r d sp prevUrl, env.detail r.url = some d →
      env.species d.species.url = some sp →
      sp.evolvesFromUrl = some prevUrl → env.species prevUrl = none →
      fetchPokemonDetails env generationMap r = some
        { id := d.id
          name := d.name
          names := sp.names.filter (fun e => e.1 ∈ targetLanguages)
          sprite := jsOrStr d.showdownSprite
            (jsOrStr d.frontDefault placeholderSprite)
          types := d.types
          generation := (generationMap d.species.name).getD 1
          evolutionStage := 1
          isBaby := sp.isBaby
          isLegendary := sp.isLegendary
          isMythical := sp.isMythical
          color := sp.color }) ∧
    (env.pokemonList = none → init env = none) ∧
    (∀ refs, env.pokemonList = some refs → (init env).isSome) := by
  refine ⟨?_, ?_, ?_, ?_, ?_, ?_⟩
  · intro generationMap r h
    simp [fetchPokemonDetails, h]
  · intro generationMap refs
    exact fetchPokemonDetailsBatch_eq_filterMap env generationMap refs
  · intro generationMap r d hd hs
    simp [fetchPokemonDetails, hd, speciesEnrichment, hs, defaultEnrichment]
  · intro generationMap r d sp prevUrl hd hs he hps
    simp [fetchPokemonDetails, hd, speciesEnrichment, hs, he, hps]
  · intro h
    simp [init, h]
  · intro refs h
    simp [init, h]

/-- The detail record of the C2 entity whose species fetch fails. -/
def c2Detail : DetailData :=
  { id := 1
    name := "bulbasaur"
    showdownSprite := some "x"
    frontDefault := none
    types := ["grass", "poison"]
    species := ⟨"bulbasaur", "species/1"⟩ }

/-- A catalog source whose only entity has a working detail fetch but a
failing species fetch. -/
def c2Env : FetchEnv :=
  { generationSpecies := fun _ => none
    pokemonList := some [⟨"bulbasaur", "https://pokeapi.co/api/v2/pokemon/1/"⟩]
    detail := fun u =>
      if u = "https://pokeapi.co/api/v2/pokemon/1/" then some c2Detail
      else none
    species := fun _ => none }

/-- The record ingested for that entity: kept, with default enrichment. -/
def c2Record : Pokemon :=
  { id := 1
    name := "bulbasaur"
    names := []
    sprite := "x"
    types := ["grass", "poison"]
    generation := 1
    evolutionStage := 1
    isBaby := false
    isLegendary := false
    isMythical := false
    color := none }

/-- Evaluating `init` when the reference-list fetch succeeded. -/
theorem init_some (env : FetchEnv) (refs : List PokemonRef)
    (h : env.pokemonList = some refs) :
    init env = some
      ((fetchPokemonDetailsBatch env (fetchGenerationMappings env)
        refs).mergeSort (fun a b => a.id ≤ b.id)) := by
  simp [init, h]

/-- Counterexample to C2 as stated: the claim says a failure fetching an
entity's species record drops that entity, but in this run every species
fetch fails and the catalog still contains the entity (with default
enrichment). -/
theorem C2_counterexample :
    c2Env.species c2Detail.species.url = none ∧
    init c2Env = some [c2Record] := by
  refine ⟨rfl, ?_⟩
  rw [init_some c2Env
    [⟨"bulbasaur", "https://pokeapi.co/api/v2/pokemon/1/"⟩] rfl,
    fetchPokemonDetailsBatch_eq_filterMap]
  have hfm : ([(⟨"bulbasaur", "https://pokeapi.co/api/v2/pokemon/1/"⟩ :
      PokemonRef)].filter refInRange).filterMap
      (fetchPokemonDetails c2Env (fetchGenerationMappings c2Env))
      = [c2Record] := by rfl
  rw [hfm, List.mergeSort_singleton]

/-- A species record declaring a predecessor, for the predecessor-failure
run (one localized name outside the allow-list, to exercise the filter). -/
def c2bSpecies : SpeciesData :=
  { names := [("en", "Bisasam"), ("qq", "zz")]
    isBaby := false
    isLegendary := true
    isMythical := false
    color := some "green"
    evolvesFromUrl := some "species/0" }

/-- A catalog source whose entity's species fetch works but whose
predecessor fetch fails. -/
def c2bEnv : FetchEnv :=
  { generationSpecies := fun _ => none
    pokemonList := some [⟨"bulbasaur", "https://pokeapi.co/api/v2/pokemon/1/"⟩]
    detail := fun u =>
      if u = "https://pokeapi.co/api/v2/pokemon/1/" then some c2Detail
      else none
    species := fun u =>
      if u = "species/1" then some c2bSpecies else none }

/-- The record kept in the predecessor-failure run: species fields
retained, stage left at 1. -/
def c2bRecord : Pokemon :=
  { id := 1
    name := "bulbasaur"
    names := [("en", "Bisasam")]
    sprite := "x"
    types := ["grass", "poison"]
    generation := 1
    evolutionStage := 1
    isBaby := false
    isLegendary := true
    isMythical := false
    color := some "green" }

theorem C2_failure_semantics_witness :
    fetchPokemonDetails c2Env (fun _ => none)
      ⟨"bulbasaur", "https://pokeapi.co/api/v2/pokemon/1/"⟩
      = some c2Record ∧
    fetchPokemonDetails c2bEnv (fun _ => none)
      ⟨"bulbasaur", "https://pokeapi.co/api/v2/pokemon/1/"⟩
      = some c2bRecord ∧
    init { c2Env with pokemonList := none } = none :=
  ⟨(C2_failure_semantics c2Env).2.2.1 (fun _ => none)
      ⟨"bulbasaur", "https://pokeapi.co/api/v2/pokemon/1/"⟩ c2Detail rfl rfl,
   (C2_failure_semantics c2bEnv).2.2.2.1 (fun _ => none)
      ⟨"bulbasaur", "https://pokeapi.co/api/v2/pokemon/1/"⟩ c2Detail
      c2bSpecies "species/0" rfl rfl rfl rfl,
   (C2_failure_semantics { c2Env with pokemonList := none }).2.2.2.2.1 rfl⟩

/-! ## Claim C4: sorted, bounded catalog -/

/-- **C4.** References are filtered to the encoded-id bound before any
detail fetch (the batched accumulator is a `filterMap` over the filtered
reference list), and — provided the remote detail records carry the id
their reference URL encodes — every record of an ingested catalog has
`id ≤ MAX_POKEMON_ID`, and the catalog is sorted ascending by id. -/
theorem C4_sorted_bounded (env : FetchEnv)
    (hid : ∀ r d, env.detail r.url = some d → refEncodedId r = some d.id) :
    (∀ generationMap refs,
      fetchPokemonDetailsBatch env generationMap refs =
        (refs.filter refInRange).filterMap
          (fetchPokemonDetails env generationMap)) ∧
    (∀ catalog, init env = some catalog →
      List.Sorted (fun a b : Pokemon => a.id ≤ b.id) catalog ∧
      ∀ p ∈ catalog, p.id ≤ MAX_POKEMON_ID) := by
  refine ⟨fun gm refs => fetchPokemonDetailsBatch_eq_filterMap env gm refs, ?_⟩
  intro catalog hcat
  rcases hl : env.pokemonList with _ | refs
  · simp [init, hl] at hcat
  · rw [init_some env refs hl] at hcat
    injection hcat with hcat
    subst hcat
    constructor
    · have htrans : ∀ a b c : Pokemon, decide (a.id ≤ b.id) = true →
          decide (b.id ≤ c.id) = true → decide (a.id ≤ c.id) = true := by
        intro a b c hab hbc
        simp only [decide_eq_true_eq] at hab hbc ⊢
        omega
      have htotal : ∀ a b : Pokemon,
          (decide (a.id ≤ b.id) || decide (b.id ≤ a.id)) = true := by
        intro a b
        simpa using Nat.le_total a.id b.id
      have hs := List.sorted_mergeSort htrans htotal
        (fetchPokemonDetailsBatch env (fetchGenerationMappings env) refs)
      exact hs.imp (fun h => by simpa using h)
    · intro p hp
      have hp' : p ∈ fetchPokemonDetailsBatch env
          (fetchGenerationMappings env) refs :=
        (List.mergeSort_perm _ _).mem_iff.mp hp
      rw [fetchPokemonDetailsBatch_eq_filterMap, List.mem_filterMap] at hp'
      obtain ⟨r, hr, hfetch⟩ := hp'
      rw [List.mem_filter] at hr
      obtain ⟨hrmem, hrrange⟩ := hr
      rcases hd : env.detail r.url with _ | d
      · simp only [fetchPokemonDetails, hd] at hfetch
        exact Option.noConfusion hfetch
      · simp only [fetchPokemonDetails, hd, Option.some.injEq] at hfetch
        have hpid : p.id = d.id := by rw [← hfetch]
        simp only [refInRange, hid r d hd, decide_eq_true_eq] at hrrange
        rw [hpid]
        exact hrrange

/-- The detail record of the single C4 entity. -/
def c4Detail : DetailData :=
  { id := 7
    name := "squirtle"
    showdownSprite := some "w"
    frontDefault := none
    types := ["water"]
    species := ⟨"squirtle", "species/7"⟩ }

/-- A catalog source with one in-range entity and a working lineage index
for generation 1. -/
def c4Env : FetchEnv :=
  { generationSpecies := fun i => if i = 1 then some ["squirtle"] else none
    pokemonList := some [⟨"squirtle", "https://pokeapi.co/api/v2/pokemon/7/"⟩]
    detail := fun u =>
      if u = "https://pokeapi.co/api/v2/pokemon/7/" then some c4Detail
      else none
    species := fun u =>
      if u = "species/7" then some (chainSpecies none) else none }

/-- The catalog `init` produces from `c4Env`. -/
def c4Catalog : List Pokemon :=
  [{ id := 7
     name := "squirtle"
     names := []
     sprite := "w"
     types := ["water"]
     generation := 1
     evolutionStage := 1
     isBaby := false
     isLegendary := false
     isMythical := false
     color := none }]

theorem C4_sorted_bounded_witness :
    List.Sorted (fun a b : Pokemon => a.id ≤ b.id) c4Catalog ∧
    c4Catalog.all (fun p => decide (p.id ≤ MAX_POKEMON_ID)) = true := by
  have hid : ∀ r d, c4Env.detail r.url = some d →
      refEncodedId r = some d.id := by
    intro r d h
    by_cases hu : r.url = "https://pokeapi.co/api/v2/pokemon/7/"
    · have hd : some c4Detail = some d := by simpa [c4Env, hu] using h
      injection hd with hd
      subst hd
      simp only [refEncodedId, hu]
      rfl
    · exfalso
      simp [c4Env, hu] at h
  have hinit : init c4Env = some c4Catalog := by
    rw [init_some c4Env
      [⟨"squirtle", "https://pokeapi.co/api/v2/pokemon/7/"⟩] rfl,
      fetchPokemonDetailsBatch_eq_filterMap]
    have hfm : ([(⟨"squirtle", "https://pokeapi.co/api/v2/pokemon/7/"⟩ :
        PokemonRef)].filter refInRange).filterMap
        (fetchPokemonDetails c4Env (fetchGenerationMappings c4Env))
        = c4Catalog := by rfl
    rw [hfm]
    exact congrArg some (List.mergeSort_singleton _)
  have h := (C4_sorted_bounded c4Env hid).2 c4Catalog hinit
  exact ⟨h.1, List.all_eq_true.mpr (fun p hp => by simpa using h.2 p hp)⟩

end PokeWhoAmI
